import Mathlib

/-!
A shallow embedding of the reconciliation core of the Immich → Google Photos
mirroring service, together with theorems checking its specification.

The embedding follows the Python source:
  * `app/models.py`        — `SyncStatus`, `RunStatus`, `SyncItem`, `SyncRun`, `SyncRunLog`
  * `app/sync/engine.py`   — `SyncEngine.sync_asset`, `SyncEngine.delete_orphaned_assets`,
                             `SyncEngine.run_sync`, the per-run cancel flags
  * `app/routes/sync.py`   — `trigger_sync`
External adapter calls (Immich download, Google upload/batchCreate/list/delete)
are modelled as emitted `NetCall` effects whose outcomes are inputs to the
engine, mirroring the adapter interfaces at the boundary.
-/

namespace ImmichMirror

/-- `SyncStatus` from `app/models.py`: per-asset ledger status. -/
inductive SyncStatus where
  | PENDING
  | OK
  | FAILED
  | ORPHANED
  deriving DecidableEq, Repr

/-- `RunStatus` from `app/models.py`: sync run status. -/
inductive RunStatus where
  | RUNNING
  | OK
  | FAILED
  | CANCELLED
  deriving DecidableEq, Repr

/-- `SyncRunAction` from `app/models.py`: audit log action kinds. -/
inductive SyncRunAction where
  | UPLOADED
  | SKIPPED
  | FAILED
  | DELETED
  deriving DecidableEq, Repr

/-- A source asset as returned by the Immich adapter
(`get_album_assets`): the fields `sync_asset` reads.  `checksum` and
`updatedAt` are `Option` because `asset.get(...)` may find no key. -/
structure Asset where
  id : String
  originalFileName : String
  checksum : Option String
  updatedAt : Option String
  deriving DecidableEq, Repr

/-- `SyncItem` from `app/models.py`: one ledger row, keyed by
`immich_asset_id`.  Nullable columns are `Option`. -/
structure SyncItem where
  immich_asset_id : String
  immich_checksum : Option String
  immich_updated_at : Option String
  immich_filename : Option String
  google_media_item_id : Option String
  google_product_url : Option String
  status : SyncStatus
  error : Option String
  deriving DecidableEq, Repr

/-- `SyncRun` from `app/models.py`: one run record.  Timestamps are
abstract ticks (`Nat`); `log_excerpt` is the stored joined string. -/
structure SyncRun where
  id : Nat
  status : RunStatus
  finished_at : Option Nat
  total_assets : Nat
  uploaded : Nat
  skipped : Nat
  failed : Nat
  deleted : Nat
  log_excerpt : Option String
  deriving DecidableEq, Repr

/-- `SyncRunLog` from `app/models.py`: one append-only audit entry. -/
structure SyncRunLog where
  sync_run_id : Nat
  action : SyncRunAction
  immich_asset_id : String
  immich_filename : String
  google_media_item_id : Option String
  error_message : Option String
  deriving DecidableEq, Repr

/-- A network call issued to one of the two adapters. -/
inductive NetCall where
  | listSourceAssets
  | downloadOriginal (assetId : String)
  | uploadBytes (filename : String)
  | batchCreate (filename : String)
  | listAlbumItems
  | deleteItems (ids : List String)
  deriving DecidableEq, Repr

/-- The engine's observable state: the ledger table, the audit-log table,
the current run record, the engine's `log_messages` buffer, and the trace
of adapter calls issued so far. -/
structure EngineState where
  ledger : List SyncItem
  runLogs : List SyncRunLog
  run : SyncRun
  log_messages : List String
  netCalls : List NetCall
  deriving DecidableEq, Repr

/-- `self.log(message)`: append one line to the run's message buffer. -/
def logMsg (st : EngineState) (m : String) : EngineState :=
  { st with log_messages := st.log_messages ++ [m] }

/-- Python string truthiness of `a or b` for an optional string `a`:
`None` and the empty string fall through to the default. -/
def pyOr (o : Option String) (d : String) : String :=
  match o with
  | some s => if s = "" then d else s
  | none => d

/-- The change-detection fingerprint from `sync_asset`
(`engine.py` line 155):
`asset.get("checksum") or f"{asset.get('updatedAt', '')}_{filename}"`. -/
def fingerprint (a : Asset) : String :=
  pyOr a.checksum ((a.updatedAt.getD "") ++ "_" ++ a.originalFileName)

/-- Ledger lookup by primary key (`select(SyncItem).where(immich_asset_id == asset_id)`). -/
def findEntry (ledger : List SyncItem) (aid : String) : Option SyncItem :=
  ledger.find? (fun it => it.immich_asset_id == aid)

/-- Persist a ledger row: mutate the row found earlier, or insert a fresh
row when none existed (`if not sync_item: db.add(SyncItem(...))`). -/
def upsertItem (ledger : List SyncItem) (old : Option SyncItem) (item : SyncItem) :
    List SyncItem :=
  match old with
  | some _ => ledger.map (fun it => if it.immich_asset_id = item.immich_asset_id then item else it)
  | none => ledger ++ [item]

/-- The outcome of the three UPLOAD sub-steps for one asset, as delivered
by the adapters: the download, the byte upload, or the media-item
finalization may raise (with message `e`), or everything succeeds and
yields a media item id and product url. -/
inductive UploadOutcome where
  | downloadFails (e : String)
  | uploadFails (e : String)
  | finalizeFails (e : String)
  | success (mediaItemId : String) (productUrl : String)
  deriving DecidableEq, Repr

/-- The error message carried by a failing `UploadOutcome`. -/
def outcomeErr : UploadOutcome → Option String
  | .downloadFails e => some e
  | .uploadFails e => some e
  | .finalizeFails e => some e
  | .success _ _ => none

/-- The AUDIT(FAILED) entry appended by the `except` branch of `sync_asset`. -/
def failLog (rid : Nat) (asset_id filename e : String) : SyncRunLog :=
  { sync_run_id := rid, action := SyncRunAction.FAILED,
    immich_asset_id := asset_id, immich_filename := filename,
    google_media_item_id := none, error_message := some e }

/-- The ledger row written by the `except` branch of `sync_asset`
(`engine.py` lines 250–256): the existing row, or a fresh one, with
filename set, status FAILED and the error text captured. -/
def failedFor (old : Option SyncItem) (asset_id filename e : String) : SyncItem :=
  match old with
  | some it => { it with immich_filename := some filename,
                         status := SyncStatus.FAILED, error := some e }
  | none => { immich_asset_id := asset_id, immich_checksum := none,
              immich_updated_at := none, immich_filename := some filename,
              google_media_item_id := none, google_product_url := none,
              status := SyncStatus.FAILED, error := some e }

/-- The `except` branch of `sync_asset` (`engine.py` lines 236–261):
append an AUDIT(FAILED) entry, set the ledger row (existing or fresh) to
FAILED with the error text, increment `failed`, return `False`. -/
def failStep (st : EngineState) (asset_id filename e : String) (old : Option SyncItem) :
    EngineState × Bool :=
  let st := logMsg st ("Failed to sync " ++ filename ++ ": " ++ e)
  let st := { st with runLogs := st.runLogs ++ [failLog st.run.id asset_id filename e] }
  let st := { st with ledger := upsertItem st.ledger old (failedFor old asset_id filename e) }
  let st := { st with run := { st.run with failed := st.run.failed + 1 } }
  (st, false)

/-- The SKIP branch of `sync_asset` (`engine.py` lines 159–173):
increment `skipped`, append an AUDIT(SKIPPED) entry, return `True`
without touching the ledger or the network. -/
def skipStep (st : EngineState) (asset_id filename : String) (it : SyncItem) :
    EngineState × Bool :=
  let st := logMsg st ("Skipping unchanged: " ++ filename)
  let st := { st with run := { st.run with skipped := st.run.skipped + 1 } }
  let st := { st with runLogs := st.runLogs ++
    [({ sync_run_id := st.run.id, action := SyncRunAction.SKIPPED,
        immich_asset_id := asset_id, immich_filename := filename,
        google_media_item_id := it.google_media_item_id, error_message := none } : SyncRunLog)] }
  (st, true)

/-- The ledger row written after a successful upload (`engine.py` lines
206–218): fingerprint, updatedAt, filename, the new media item id and
url, status OK, error cleared. -/
def okItem (a : Asset) (mid url : String) : SyncItem :=
  { immich_asset_id := a.id
    immich_checksum := some (fingerprint a)
    immich_updated_at := some (a.updatedAt.getD "")
    immich_filename := some a.originalFileName
    google_media_item_id := some mid
    google_product_url := some url
    status := SyncStatus.OK
    error := none }

/-- The UPLOAD path of `sync_asset` (`engine.py` lines 175–234): download
from Immich, upload bytes, finalize the media item; on success persist
id/url/fingerprint with status OK and append AUDIT(UPLOADED); any sub-step
failure is routed to `failStep`. -/
def uploadStep (st : EngineState) (a : Asset) (old : Option SyncItem) (oc : UploadOutcome) :
    EngineState × Bool :=
  let asset_id := a.id
  let filename := a.originalFileName
  let st := logMsg st ("Downloading: " ++ filename)
  let st := { st with netCalls := st.netCalls ++ [NetCall.downloadOriginal asset_id] }
  match oc with
  | .downloadFails e => failStep st asset_id filename e old
  | .uploadFails e =>
      let st := logMsg st "Downloaded bytes"
      let st := logMsg st ("Uploading to Google Photos: " ++ filename)
      let st := { st with netCalls := st.netCalls ++ [NetCall.uploadBytes filename] }
      failStep st asset_id filename e old
  | .finalizeFails e =>
      let st := logMsg st "Downloaded bytes"
      let st := logMsg st ("Uploading to Google Photos: " ++ filename)
      let st := { st with netCalls := st.netCalls ++
        [NetCall.uploadBytes filename, NetCall.batchCreate filename] }
      failStep st asset_id filename e old
  | .success mid url =>
      let st := logMsg st "Downloaded bytes"
      let st := logMsg st ("Uploading to Google Photos: " ++ filename)
      let st := { st with netCalls := st.netCalls ++
        [NetCall.uploadBytes filename, NetCall.batchCreate filename] }
      let st := logMsg st ("Created media item: " ++ mid)
      let st := { st with ledger := upsertItem st.ledger old (okItem a mid url) }
      let st := { st with runLogs := st.runLogs ++
        [({ sync_run_id := st.run.id, action := SyncRunAction.UPLOADED,
            immich_asset_id := asset_id, immich_filename := filename,
            google_media_item_id := some mid, error_message := none } : SyncRunLog)] }
      let st := { st with run := { st.run with uploaded := st.run.uploaded + 1 } }
      (st, true)

/-- The SKIP test of `sync_asset` (`engine.py` line 159):
`sync_item.immich_checksum == fingerprint and sync_item.status == SyncStatus.OK`. -/
def willSkip (ledger : List SyncItem) (a : Asset) : Bool :=
  match findEntry ledger a.id with
  | some it => it.immich_checksum == some (fingerprint a) && it.status == SyncStatus.OK
  | none => false

/-- `SyncEngine.sync_asset` (`engine.py` lines 142–261): look up the
ledger row, compute the fingerprint, SKIP when unchanged and OK,
otherwise run the UPLOAD path with its local error handling. -/
def sync_asset (st : EngineState) (a : Asset) (oc : UploadOutcome) : EngineState × Bool :=
  match findEntry st.ledger a.id with
  | some it =>
      if it.immich_checksum = some (fingerprint a) ∧ it.status = SyncStatus.OK then
        skipStep st a.id a.originalFileName it
      else
        uploadStep st a (some it) oc
  | none => uploadStep st a none oc

/-- Inputs supplied by the environment for one `run_sync` execution:
whether the setup phases succeed, the source inventory, the per-asset
upload outcomes, the cancellation point, and the orphan-phase adapter
data (the Google album listing and the error lines returned by the
bulk delete).  `now` is the tick stamped as a finish time. -/
structure RunInputs where
  initOk : Bool
  ensureAlbumOk : Bool
  fetchOk : Bool
  assets : List Asset
  oc : Nat → UploadOutcome
  cancelAfter : Option Nat
  googleItems : List String
  delErrors : List String
  now : Nat

/-- Cooperative cancellation: the per-run `asyncio.Event` is set from
poll point `c` onward (`none`: never set).  Poll points are numbered
0 (the pre-start check), `i` (the check before the `i`-th asset,
1-based), and `assets.length + 1` (the check entering the orphan phase). -/
def cancelObserved (cancelAfter : Option Nat) (p : Nat) : Bool :=
  match cancelAfter with
  | none => false
  | some c => decide (c ≤ p)

/-- `self.log_messages[-50:]`: the trailing excerpt, at most 50 entries. -/
def excerptOf (msgs : List String) : List String :=
  msgs.drop (msgs.length - 50)

/-- Terminal-state stamping as done on the completed paths of `run_sync`:
set the terminal status, `finished_at`, and the joined last-50-lines
`log_excerpt`. -/
def finalizeRun (st : EngineState) (s : RunStatus) (now : Nat) : EngineState :=
  { st with run := { st.run with
      status := s,
      finished_at := some now,
      log_excerpt := some (String.intercalate "\n" (excerptOf st.log_messages)) } }

/-- `err.split(":")[0]`: the prefix of the string before the first
colon (the whole string when no colon occurs). -/
def takeUntilColon : List Char → List Char
  | [] => []
  | c :: cs => if c = ':' then [] else c :: takeUntilColon cs

/-- `.replace("Item ", "")`: remove every non-overlapping occurrence of
the five characters `Item `, scanning left to right. -/
def removeItemMarker : List Char → List Char
  | 'I' :: 't' :: 'e' :: 'm' :: ' ' :: rest => removeItemMarker rest
  | c :: cs => c :: removeItemMarker cs
  | [] => []

/-- Drop leading whitespace characters. -/
def dropLeadingWs : List Char → List Char
  | [] => []
  | c :: cs => if c.isWhitespace then dropLeadingWs cs else c :: cs

/-- `.strip()`: drop whitespace from both ends. -/
def stripWs (s : List Char) : List Char :=
  (dropLeadingWs (dropLeadingWs s).reverse).reverse

/-- The id-recovery applied to each bulk-delete error line
(`engine.py` lines 354–357):
`err.split(":")[0].replace("Item ", "").strip()`. -/
def parseErrId (err : String) : String :=
  String.mk (stripWs (removeItemMarker (takeUntilColon err.data)))

/-- The `google_to_sync` dict lookup (`engine.py` lines 298–302): maps a
Google media item id to the ledger row carrying it; a dict comprehension
keeps the last row when ids collide, hence the reversed search. -/
def googleLookup (ledger : List SyncItem) (gid : String) : Option SyncItem :=
  ledger.reverse.find? (fun it => it.google_media_item_id == some gid)

/-- The orphan-candidate computation (`engine.py` lines 304–324): walk
the Google album listing; an item with a ledger row whose source asset id
is no longer in the current inventory becomes a candidate; items without
a ledger row are skipped. -/
def orphanCandidates (ledger : List SyncItem) (googleItems : List String)
    (currentIds : List String) : List (String × SyncItem) :=
  googleItems.filterMap fun gid =>
    match googleLookup ledger gid with
    | some it => if it.immich_asset_id ∈ currentIds then none else some (gid, it)
    | none => none

/-- Delete the ledger row keyed by `aid` (`await self.db.delete(sync_item)`). -/
def removeByAssetId (ledger : List SyncItem) (aid : String) : List SyncItem :=
  ledger.filter (fun it => ¬ (it.immich_asset_id = aid))

/-- Mark the ledger row keyed by `aid` ORPHANED with the fixed error text
(`engine.py` lines 374–376). -/
def markOrphaned (ledger : List SyncItem) (aid : String) : List SyncItem :=
  ledger.map fun it =>
    if it.immich_asset_id = aid then
      { it with status := SyncStatus.ORPHANED,
                error := some "Failed to remove from Google Photos album" }
    else it

/-- One iteration of the per-orphan update loop (`engine.py` lines
349–376): when the id does not appear among the parsed error lines the
removal counts as successful — append AUDIT(DELETED), drop the ledger
row, increment `deleted`; otherwise keep the row as ORPHANED. -/
def processOrphan (delErrors : List String) (st : EngineState)
    (orphan : String × SyncItem) : EngineState :=
  let gid := orphan.1
  let it := orphan.2
  if gid ∈ delErrors.map parseErrId then
    { st with ledger := markOrphaned st.ledger it.immich_asset_id }
  else
    let st := { st with runLogs := st.runLogs ++
      [({ sync_run_id := st.run.id, action := SyncRunAction.DELETED,
          immich_asset_id := it.immich_asset_id,
          immich_filename := pyOr it.immich_filename "unknown",
          google_media_item_id := some gid, error_message := none } : SyncRunLog)] }
    let st := { st with ledger := removeByAssetId st.ledger it.immich_asset_id }
    { st with run := { st.run with deleted := st.run.deleted + 1 } }

/-- `SyncEngine.delete_orphaned_assets` (`engine.py` lines 263–382):
skipped when cancellation is observed; lists the Google album; returns
early on an empty listing or an empty candidate set; otherwise issues one
bulk delete for the candidate ids and applies the per-orphan updates. -/
def delete_orphaned_assets (st : EngineState) (inp : RunInputs) : EngineState :=
  if cancelObserved inp.cancelAfter (inp.assets.length + 1) then
    logMsg st "Cancellation requested; skipping orphan deletion"
  else
    let st := logMsg st "Checking for orphaned assets in Google Photos..."
    let st := { st with netCalls := st.netCalls ++ [NetCall.listAlbumItems] }
    if inp.googleItems.isEmpty then
      logMsg st "No media items found in Google Photos album"
    else
      let currentIds := inp.assets.map (fun a => a.id)
      let orphans := orphanCandidates st.ledger inp.googleItems currentIds
      if orphans.isEmpty then
        logMsg st "No orphaned assets found"
      else
        let st := logMsg st "Found orphaned asset(s) to delete"
        let st := { st with netCalls := st.netCalls ++
          [NetCall.deleteItems (orphans.map (fun o => o.1))] }
        let st := logMsg st "Removed asset(s) from album"
        let st := (inp.delErrors.take 10).foldl
          (fun s e => logMsg s ("Removal error: " ++ e)) st
        orphans.foldl (processOrphan inp.delErrors) st

/-- The per-asset loop of `run_sync` (`engine.py` lines 427–440): poll
the cancel flag before each asset; on cancellation finalize CANCELLED
(the returned flag records that the loop was cancelled); otherwise run
`sync_asset` and continue with the rest.  `i` is the 1-based position. -/
def syncLoop (inp : RunInputs) : Nat → List Asset → EngineState → EngineState × Bool
  | _, [], st => (st, false)
  | i, a :: rest, st =>
      if cancelObserved inp.cancelAfter i then
        (finalizeRun (logMsg st "Cancellation requested; stopping sync")
          RunStatus.CANCELLED inp.now, true)
      else
        let st := logMsg st ("Processing asset: " ++ a.originalFileName)
        syncLoop inp (i + 1) rest (sync_asset st a (inp.oc (i - 1))).1

/-- `SyncEngine.run_sync` (`engine.py` lines 384–465): the full run.
Returns the final state and the function's boolean result.  The
album-resolution failure branch mirrors lines 412–415, which set FAILED
without stamping `finished_at` or `log_excerpt`. -/
def run_sync (st0 : EngineState) (inp : RunInputs) : EngineState × Bool :=
  if ¬ inp.initOk then
    (finalizeRun (logMsg st0 "Initialization failed") RunStatus.FAILED inp.now, false)
  else
    let st := logMsg st0 "Initialized sync"
    let st := { st with run := { st.run with status := RunStatus.RUNNING } }
    if cancelObserved inp.cancelAfter 0 then
      (finalizeRun (logMsg st "Cancellation requested before start")
        RunStatus.CANCELLED inp.now, false)
    else if ¬ inp.ensureAlbumOk then
      let st := logMsg st "Failed to ensure Google album"
      ({ st with run := { st.run with status := RunStatus.FAILED } }, false)
    else
      let st := logMsg st "Fetching assets from Immich..."
      let st := { st with netCalls := st.netCalls ++ [NetCall.listSourceAssets] }
      if ¬ inp.fetchOk then
        (finalizeRun (logMsg st "Sync failed: could not fetch assets")
          RunStatus.FAILED inp.now, false)
      else
        let st := { st with run := { st.run with total_assets := inp.assets.length } }
        let st := logMsg st "Found assets in Immich album"
        let p := syncLoop inp 1 inp.assets st
        if p.2 then (p.1, false)
        else
          let st2 := delete_orphaned_assets p.1 inp
          let stF := finalizeRun st2 RunStatus.OK inp.now
          (logMsg stF "Sync completed", true)

/-- A fresh `SyncRun()` row with the column defaults of `app/models.py`
(`status` defaults to RUNNING, counters to 0, nullable columns to NULL). -/
def newRun (id : Nat) : SyncRun :=
  { id := id, status := RunStatus.RUNNING, finished_at := none, total_assets := 0,
    uploaded := 0, skipped := 0, failed := 0, deleted := 0, log_excerpt := none }

/-- An engine state at the start of a fresh run `rid`: empty tables and
no calls issued yet. -/
def freshState (rid : Nat) : EngineState :=
  { ledger := [], runLogs := [], run := newRun rid, log_messages := [], netCalls := [] }

/-- The state seen by the trigger surface (`app/routes/sync.py`): the
runs table and the autoincrement counter for the next run id. -/
structure AppState where
  runs : List SyncRun
  nextId : Nat
  deriving DecidableEq, Repr

/-- The route's SELECT: is some run currently RUNNING? -/
def anyRunning (runs : List SyncRun) : Bool :=
  runs.any (fun r => r.status == RunStatus.RUNNING)

/-- INSERT of a fresh `SyncRun()` row. -/
def insertRun (st : AppState) : AppState :=
  { runs := st.runs ++ [newRun st.nextId], nextId := st.nextId + 1 }

/-- The error raised by `trigger_sync`: `HTTPException(status_code=409)`. -/
inductive TriggerError where
  | conflict (statusCode : Nat)
  deriving DecidableEq, Repr

/-- `trigger_sync` (`app/routes/sync.py` lines 17–56), sequential
semantics: SELECT a RUNNING run; raise 409 if one exists; otherwise
INSERT a fresh run and return its id. -/
def trigger_sync (st : AppState) : AppState × Except TriggerError Nat :=
  if anyRunning st.runs then (st, Except.error (TriggerError.conflict 409))
  else (insertRun st, Except.ok st.nextId)

/-- One trigger attempt decomposed into the two storage operations the
route performs in sequence: the SELECT for a RUNNING run (`sync.py`
lines 24–30), then the INSERT (lines 36–39). -/
inductive TriggerStep where
  | check
  | insert
  deriving DecidableEq, Repr

/-- The local state of one in-flight trigger attempt. -/
structure ThreadState where
  checked : Bool
  sawRunning : Bool
  deriving DecidableEq, Repr

/-- Execute one step of one trigger attempt against the shared state:
`check` records what the SELECT saw; `insert` adds the new RUNNING run
exactly when the attempt's earlier SELECT saw none (otherwise the route
raised 409 and inserts nothing). -/
def stepThread (app : AppState) (t : ThreadState) :
    TriggerStep → AppState × ThreadState
  | .check => (app, { checked := true, sawRunning := anyRunning app.runs })
  | .insert =>
      if t.checked ∧ ¬ t.sawRunning = true then (insertRun app, t) else (app, t)

/-- Run an interleaved schedule of two concurrent trigger attempts;
`true` steps belong to the first attempt. -/
def runSchedule : AppState → ThreadState → ThreadState →
    List (Bool × TriggerStep) → AppState
  | app, _, _, [] => app
  | app, t1, t2, (isFirst, s) :: rest =>
      if isFirst then
        let p := stepThread app t1 s
        runSchedule p.1 p.2 t2 rest
      else
        let p := stepThread app t2 s
        runSchedule p.1 t1 p.2 rest

/-- How many runs are observed in RUNNING state. -/
def countRunning (runs : List SyncRun) : Nat :=
  (runs.filter (fun r => r.status == RunStatus.RUNNING)).length

/-! ### Basic lemmas about the embedded operations -/

@[simp] lemma logMsg_run (st : EngineState) (m : String) : (logMsg st m).run = st.run := rfl

@[simp] lemma logMsg_ledger (st : EngineState) (m : String) :
    (logMsg st m).ledger = st.ledger := rfl

@[simp] lemma logMsg_netCalls (st : EngineState) (m : String) :
    (logMsg st m).netCalls = st.netCalls := rfl

@[simp] lemma logMsg_runLogs (st : EngineState) (m : String) :
    (logMsg st m).runLogs = st.runLogs := rfl

@[simp] lemma findEntry_nil (k : String) : findEntry [] k = none := rfl

lemma findEntry_cons (x : SyncItem) (xs : List SyncItem) (k : String) :
    findEntry (x :: xs) k =
      if x.immich_asset_id = k then some x else findEntry xs k := by
  by_cases hx : x.immich_asset_id = k <;> simp [findEntry, List.find?_cons, hx]

/-- A found ledger row carries the looked-up key. -/
lemma findEntry_key {L : List SyncItem} {k : String} {it : SyncItem}
    (h : findEntry L k = some it) : it.immich_asset_id = k := by
  have := List.find?_some h
  simpa using this

/-- A found ledger row is a row of the ledger. -/
lemma findEntry_mem {L : List SyncItem} {k : String} {it : SyncItem}
    (h : findEntry L k = some it) : it ∈ L :=
  List.mem_of_find?_eq_some h

/-- Inserting a row with key `k` into a ledger without one makes it findable. -/
lemma findEntry_append {L : List SyncItem} {k : String} (item : SyncItem)
    (h : findEntry L k = none) (hk : item.immich_asset_id = k) :
    findEntry (L ++ [item]) k = some item := by
  unfold findEntry at h ⊢
  rw [List.find?_append, h]
  simp [List.find?_cons, hk]

/-- Replacing the row with key `k` is observed by a subsequent lookup. -/
lemma findEntry_replace {k : String} (item : SyncItem) (hk : item.immich_asset_id = k) :
    ∀ {L : List SyncItem} {it0 : SyncItem}, findEntry L k = some it0 →
      findEntry (L.map (fun x =>
        if x.immich_asset_id = item.immich_asset_id then item else x)) k = some item := by
  intro L
  induction L with
  | nil => intro it0 h; simp at h
  | cons x xs ih =>
      intro it0 h
      rw [List.map_cons]
      by_cases hx : x.immich_asset_id = k
      · have hxi : x.immich_asset_id = item.immich_asset_id := by rw [hx, hk]
        rw [if_pos hxi, findEntry_cons, if_pos hk]
      · have hxi : ¬ x.immich_asset_id = item.immich_asset_id := by rw [hk]; exact hx
        rw [if_neg hxi, findEntry_cons, if_neg hx]
        rw [findEntry_cons, if_neg hx] at h
        exact ih h

/-- An upserted row is what a subsequent lookup finds, provided `old`
really is the earlier lookup's answer. -/
lemma findEntry_upsert {L : List SyncItem} {k : String} {old : Option SyncItem}
    (item : SyncItem) (hold : findEntry L k = old) (hk : item.immich_asset_id = k) :
    findEntry (upsertItem L old item) k = some item := by
  cases old with
  | none => exact findEntry_append item hold hk
  | some it0 => exact findEntry_replace item hk hold

@[simp] lemma upsertItem_some_length (L : List SyncItem) (it0 item : SyncItem) :
    (upsertItem L (some it0) item).length = L.length := by
  simp [upsertItem]

/-- When the SKIP test fails, `sync_asset` is the UPLOAD path. -/
lemma sync_asset_eq_upload {st : EngineState} {a : Asset} (oc : UploadOutcome)
    (h : willSkip st.ledger a = false) :
    sync_asset st a oc = uploadStep st a (findEntry st.ledger a.id) oc := by
  unfold willSkip at h
  cases hf : findEntry st.ledger a.id with
  | none => simp [sync_asset, hf]
  | some it =>
      rw [hf] at h
      have hcond : ¬ (it.immich_checksum = some (fingerprint a) ∧
          it.status = SyncStatus.OK) := by
        rintro ⟨h1, h2⟩
        simp [h1, h2] at h
      simp [sync_asset, hf, hcond]

/-- When the SKIP test holds, `sync_asset` is the SKIP branch. -/
lemma sync_asset_eq_skip {st : EngineState} {a : Asset} {it : SyncItem} (oc : UploadOutcome)
    (hf : findEntry st.ledger a.id = some it)
    (h1 : it.immich_checksum = some (fingerprint a)) (h2 : it.status = SyncStatus.OK) :
    sync_asset st a oc = skipStep st a.id a.originalFileName it := by
  simp [sync_asset, hf, h1, h2]

/-- The UPLOAD path always issues the source download for the asset. -/
lemma download_mem_uploadStep (st : EngineState) (a : Asset) (old : Option SyncItem)
    (oc : UploadOutcome) :
    NetCall.downloadOriginal a.id ∈ (uploadStep st a old oc).1.netCalls := by
  cases oc <;> simp [uploadStep, failStep, logMsg]

/-- A failing UPLOAD sub-step lands in `failStep`'s final state. -/
lemma uploadStep_fail {st : EngineState} {a : Asset} {old : Option SyncItem}
    {oc : UploadOutcome} {e : String} (h : outcomeErr oc = some e) :
    (uploadStep st a old oc).1.ledger =
      upsertItem st.ledger old (failedFor old a.id a.originalFileName e) ∧
    (uploadStep st a old oc).1.runLogs =
      st.runLogs ++ [failLog st.run.id a.id a.originalFileName e] ∧
    (uploadStep st a old oc).1.run.failed = st.run.failed + 1 ∧
    (uploadStep st a old oc).1.run.status = st.run.status ∧
    (uploadStep st a old oc).2 = false := by
  cases oc with
  | downloadFails e0 =>
      simp [outcomeErr] at h
      subst h
      simp [uploadStep, failStep, logMsg]
  | uploadFails e0 =>
      simp [outcomeErr] at h
      subst h
      simp [uploadStep, failStep, logMsg]
  | finalizeFails e0 =>
      simp [outcomeErr] at h
      subst h
      simp [uploadStep, failStep, logMsg]
  | success mid url => simp [outcomeErr] at h

/-- A fully successful UPLOAD writes `okItem` into the ledger. -/
lemma uploadStep_success (st : EngineState) (a : Asset) (old : Option SyncItem)
    (mid url : String) :
    (uploadStep st a old (UploadOutcome.success mid url)).1.ledger =
      upsertItem st.ledger old (okItem a mid url) ∧
    (uploadStep st a old (UploadOutcome.success mid url)).1.run.uploaded =
      st.run.uploaded + 1 := by
  simp [uploadStep, logMsg]

/-- With no cancellation request the per-asset loop is never cancelled. -/
lemma syncLoop_not_cancelled {inp : RunInputs} (h : inp.cancelAfter = none) :
    ∀ (l : List Asset) (i : Nat) (st : EngineState), (syncLoop inp i l st).2 = false := by
  intro l
  induction l with
  | nil => intro i st; simp [syncLoop]
  | cons a rest ih =>
      intro i st
      simp only [syncLoop, cancelObserved, h]
      exact ih (i + 1) _

/-- With no cancellation request the loop processes the head and recurses
on the tail, whatever `sync_asset` did for the head. -/
lemma syncLoop_step {inp : RunInputs} (h : inp.cancelAfter = none)
    (a : Asset) (rest : List Asset) (i : Nat) (st : EngineState) :
    syncLoop inp i (a :: rest) st =
      syncLoop inp (i + 1) rest
        (sync_asset (logMsg st ("Processing asset: " ++ a.originalFileName))
          a (inp.oc (i - 1))).1 := by
  simp [syncLoop, cancelObserved, h]

/-- `processOrphan` only touches the ledger, the audit log, and the
`deleted` counter. -/
lemma processOrphan_run_status (errs : List String) (st : EngineState)
    (o : String × SyncItem) : (processOrphan errs st o).run.status = st.run.status := by
  by_cases hmem : o.1 ∈ errs.map parseErrId <;> simp [processOrphan, hmem]

lemma processOrphan_netCalls (errs : List String) (st : EngineState)
    (o : String × SyncItem) : (processOrphan errs st o).netCalls = st.netCalls := by
  by_cases hmem : o.1 ∈ errs.map parseErrId <;> simp [processOrphan, hmem]

lemma foldl_processOrphan_run_status (errs : List String) :
    ∀ (os : List (String × SyncItem)) (st : EngineState),
      (os.foldl (processOrphan errs) st).run.status = st.run.status := by
  intro os
  induction os with
  | nil => intro st; rfl
  | cons o os ih =>
      intro st
      rw [List.foldl_cons, ih, processOrphan_run_status]

lemma foldl_processOrphan_netCalls (errs : List String) :
    ∀ (os : List (String × SyncItem)) (st : EngineState),
      (os.foldl (processOrphan errs) st).netCalls = st.netCalls := by
  intro os
  induction os with
  | nil => intro st; rfl
  | cons o os ih =>
      intro st
      rw [List.foldl_cons, ih, processOrphan_netCalls]

lemma foldl_logMsg_run (f : String → String) :
    ∀ (es : List String) (st : EngineState),
      (es.foldl (fun s e => logMsg s (f e)) st).run = st.run := by
  intro es
  induction es with
  | nil => intro st; rfl
  | cons e es ih =>
      intro st
      rw [List.foldl_cons, ih, logMsg_run]

lemma foldl_logMsg_netCalls (f : String → String) :
    ∀ (es : List String) (st : EngineState),
      (es.foldl (fun s e => logMsg s (f e)) st).netCalls = st.netCalls := by
  intro es
  induction es with
  | nil => intro st; rfl
  | cons e es ih =>
      intro st
      rw [List.foldl_cons, ih, logMsg_netCalls]

lemma foldl_logMsg_ledger (f : String → String) :
    ∀ (es : List String) (st : EngineState),
      (es.foldl (fun s e => logMsg s (f e)) st).ledger = st.ledger := by
  intro es
  induction es with
  | nil => intro st; rfl
  | cons e es ih =>
      intro st
      rw [List.foldl_cons, ih, logMsg_ledger]

/-- The orphan phase never changes the run's status. -/
lemma delete_orphaned_run_status (st : EngineState) (inp : RunInputs) :
    (delete_orphaned_assets st inp).run.status = st.run.status := by
  unfold delete_orphaned_assets
  by_cases h1 : cancelObserved inp.cancelAfter (inp.assets.length + 1) = true
  · simp [h1]
  · simp only [h1, if_false, Bool.false_eq_true]
    by_cases h2 : inp.googleItems.isEmpty = true
    · simp [h2]
    · simp only [h2, if_false, Bool.false_eq_true]
      split
      · simp
      · rw [foldl_processOrphan_run_status]
        rw [foldl_logMsg_run]
        rfl

/-- The full trace of adapter calls the orphan phase can add: nothing,
the album listing, or the listing plus one bulk delete of exactly the
orphan-candidate ids. -/
lemma delete_orphaned_netCalls (st : EngineState) (inp : RunInputs) :
    (delete_orphaned_assets st inp).netCalls = st.netCalls ∨
    (delete_orphaned_assets st inp).netCalls = st.netCalls ++ [NetCall.listAlbumItems] ∨
    ((delete_orphaned_assets st inp).netCalls = st.netCalls ++ [NetCall.listAlbumItems,
        NetCall.deleteItems ((orphanCandidates st.ledger inp.googleItems
          (inp.assets.map (fun a => a.id))).map (fun o => o.1))] ∧
      orphanCandidates st.ledger inp.googleItems (inp.assets.map (fun a => a.id)) ≠ []) := by
  unfold delete_orphaned_assets
  by_cases h1 : cancelObserved inp.cancelAfter (inp.assets.length + 1) = true
  · left; simp [h1]
  · simp only [h1, if_false, Bool.false_eq_true]
    by_cases h2 : inp.googleItems.isEmpty = true
    · right; left; simp [h2]
    · simp only [h2, if_false, Bool.false_eq_true, logMsg_ledger]
      by_cases h3 : (orphanCandidates st.ledger inp.googleItems
          (inp.assets.map (fun a => a.id))).isEmpty = true
      · right; left; simp [h3]
      · right; right
        constructor
        · simp only [h3, if_false, Bool.false_eq_true]
          rw [foldl_processOrphan_netCalls, foldl_logMsg_netCalls]
          simp
        · simpa [List.isEmpty_iff] using h3

/-- An uncancelled run whose setup phases succeed always finalizes OK,
whatever happened per asset or in the orphan phase. -/
lemma run_sync_ok {st0 : EngineState} {inp : RunInputs}
    (h1 : inp.initOk = true) (h2 : inp.ensureAlbumOk = true)
    (h3 : inp.fetchOk = true) (h4 : inp.cancelAfter = none) :
    (run_sync st0 inp).1.run.status = RunStatus.OK := by
  simp [run_sync, h1, h2, h3, cancelObserved, h4, syncLoop_not_cancelled h4,
    finalizeRun, logMsg]

/-- A `googleLookup` hit is a ledger row carrying that destination id. -/
lemma googleLookup_spec {L : List SyncItem} {gid : String} {it : SyncItem}
    (h : googleLookup L gid = some it) :
    it ∈ L ∧ it.google_media_item_id = some gid := by
  constructor
  · have := List.mem_of_find?_eq_some h
    exact List.mem_reverse.mp this
  · have := List.find?_some h
    simpa using this

/-- Membership in the orphan-candidate list, characterized: the
destination id must occur in the album listing, be linked by a ledger
row, and that row's source asset id must be gone from the inventory. -/
lemma mem_orphanCandidates {L : List SyncItem} {G C : List String}
    {gid : String} {it : SyncItem} :
    (gid, it) ∈ orphanCandidates L G C ↔
      gid ∈ G ∧ googleLookup L gid = some it ∧ it.immich_asset_id ∉ C := by
  simp only [orphanCandidates, List.mem_filterMap]
  constructor
  · rintro ⟨g, hg, hf⟩
    cases hL : googleLookup L g with
    | none => rw [hL] at hf; simp at hf
    | some it0 =>
        rw [hL] at hf
        by_cases hc : it0.immich_asset_id ∈ C
        · simp [hc] at hf
        · simp only [hc, if_neg, if_false] at hf
          have hpair := Option.some.inj hf
          have hg1 : g = gid := congrArg Prod.fst hpair
          have hit : it0 = it := congrArg Prod.snd hpair
          subst hg1
          subst hit
          exact ⟨hg, hL, hc⟩
  · rintro ⟨hg, hL, hc⟩
    exact ⟨gid, hg, by simp [hL, hc]⟩

/-- Removing a ledger row by key makes later lookups miss. -/
lemma findEntry_removeByAssetId (L : List SyncItem) (aid : String) :
    findEntry (removeByAssetId L aid) aid = none := by
  induction L with
  | nil => rfl
  | cons x xs ih =>
      by_cases hx : x.immich_asset_id = aid
      · simpa [removeByAssetId, hx] using ih
      · simpa [removeByAssetId, findEntry_cons, hx] using ih

/-- Marking a row ORPHANED rewrites exactly the row with that key. -/
lemma findEntry_markOrphaned {L : List SyncItem} {aid : String} {it0 : SyncItem}
    (h : findEntry L aid = some it0) :
    findEntry (markOrphaned L aid) aid =
      some { it0 with status := SyncStatus.ORPHANED,
                      error := some "Failed to remove from Google Photos album" } := by
  induction L with
  | nil => simp at h
  | cons x xs ih =>
      by_cases hx : x.immich_asset_id = aid
      · rw [findEntry_cons, if_pos hx] at h
        have hx0 : x = it0 := Option.some.inj h
        subst hx0
        simp only [markOrphaned, List.map_cons, if_pos hx]
        rw [findEntry_cons]
        simp [hx]
      · rw [findEntry_cons, if_neg hx] at h
        simp only [markOrphaned, List.map_cons, if_neg hx]
        rw [findEntry_cons, if_neg hx]
        exact ih h

/-- The excerpt stored at finalization is bounded by 50 entries and is a
suffix of the full message buffer. -/
lemma excerptOf_bounded (msgs : List String) :
    (excerptOf msgs).length ≤ 50 ∧ excerptOf msgs <:+ msgs := by
  constructor
  · simp only [excerptOf, List.length_drop]
    omega
  · exact List.drop_suffix _ _

/-! ### Claim fixtures -/

/-- Two concurrent trigger attempts over an initially empty runs table. -/
def emptyApp : AppState := { runs := [], nextId := 1 }

/-- A trigger attempt that has not yet run its SELECT. -/
def freshThread : ThreadState := { checked := false, sawRunning := false }

/-- The interleaving in which both SELECTs run before either INSERT. -/
def racySchedule : List (Bool × TriggerStep) :=
  [(true, TriggerStep.check), (false, TriggerStep.check),
   (true, TriggerStep.insert), (false, TriggerStep.insert)]

/-- The serialized order of the same two attempts. -/
def serialSchedule : List (Bool × TriggerStep) :=
  [(true, TriggerStep.check), (true, TriggerStep.insert),
   (false, TriggerStep.check), (false, TriggerStep.insert)]

/-! ### Claim theorems -/

/-- C1: the claim says concurrent trigger attempts can never observe two
RUNNING runs because the active-run check and the Run creation are one
atomic conditional write.  The code performs a separate SELECT followed
by an INSERT (`app/routes/sync.py` lines 24–39, `app/scheduler.py` lines
34–51), so the interleaving check₁, check₂, insert₁, insert₂ leaves two
runs in RUNNING state; the serialized order of the same two attempts
leaves one.  This refutes the claimed mechanism and its invariant. -/
theorem trigger_race_two_running :
    countRunning (runSchedule emptyApp freshThread freshThread racySchedule).runs = 2 ∧
    countRunning (runSchedule emptyApp freshThread freshThread serialSchedule).runs = 1 := by
  constructor <;> rfl

/-- Run-state fixture for the album-resolution failure path. -/
def stC7 : EngineState := freshState 3

/-- Inputs on which `ensure_google_album` fails and everything else is fine. -/
def inpC7 : RunInputs :=
  { initOk := true, ensureAlbumOk := false, fetchOk := true, assets := [],
    oc := fun _ => UploadOutcome.success "m" "u", cancelAfter := none,
    googleItems := [], delErrors := [], now := 11 }

/-- Inputs on which the inventory fetch raises. -/
def inpC7f : RunInputs :=
  { initOk := true, ensureAlbumOk := true, fetchOk := false, assets := [],
    oc := fun _ => UploadOutcome.success "m" "u", cancelAfter := none,
    googleItems := [], delErrors := [], now := 11 }

/-- C7: the claim says every terminal transition stamps the finish time
and stores a bounded (last 50 entries) log excerpt.  On the
album-resolution failure path (`engine.py` lines 412–415) the run is
left FAILED with `finished_at` and `log_excerpt` still NULL, while other
failure paths (e.g. the inventory-fetch failure handled by the generic
`except`) do stamp both; the stored excerpt is indeed the bounded last-50
suffix wherever it is stored. -/
theorem run_sync_album_failure_unstamped :
    (run_sync stC7 inpC7).1.run.status = RunStatus.FAILED ∧
    (run_sync stC7 inpC7).1.run.finished_at = none ∧
    (run_sync stC7 inpC7).1.run.log_excerpt = none ∧
    (run_sync stC7 inpC7).2 = false ∧
    (run_sync stC7 inpC7f).1.run.status = RunStatus.FAILED ∧
    (run_sync stC7 inpC7f).1.run.finished_at = some 11 ∧
    (run_sync stC7 inpC7f).1.run.log_excerpt ≠ none ∧
    (∀ msgs : List String, (excerptOf msgs).length ≤ 50 ∧ excerptOf msgs <:+ msgs) := by
  refine ⟨rfl, rfl, rfl, rfl, rfl, rfl, by decide, excerptOf_bounded⟩

/-- The one-asset inventory for the pre-armed cancellation scenario. -/
def aC8 : Asset :=
  { id := "a1", originalFileName := "a.jpg", checksum := some "c1", updatedAt := some "t1" }

/-- Inputs with a cancel pre-armed before the run starts and one source asset. -/
def inpC8 : RunInputs :=
  { initOk := true, ensureAlbumOk := true, fetchOk := true, assets := [aC8],
    oc := fun _ => UploadOutcome.success "m" "u", cancelAfter := some 0,
    googleItems := [], delErrors := [], now := 5 }

/-- C8 counterexample: a cancellation pre-armed before the run starts is
"requested before any asset is processed", yet the run ends CANCELLED
with `total_assets = 0` although the source inventory holds 1 asset —
the pre-start check (`engine.py` lines 401–408) fires before the
inventory is ever fetched, so `total_assets` is not set to the inventory
size as claimed. -/
theorem prearmed_cancel_total_assets_zero :
    (run_sync (freshState 4) inpC8).1.run.status = RunStatus.CANCELLED ∧
    (run_sync (freshState 4) inpC8).1.run.total_assets = 0 ∧
    inpC8.assets.length = 1 ∧
    (run_sync (freshState 4) inpC8).1.run.total_assets ≠ inpC8.assets.length := by
  refine ⟨rfl, rfl, rfl, by decide⟩

/-- C8 (amended): cancellation observed at the first per-asset check —
after the inventory fetch — ends the run CANCELLED with `total_assets`
equal to the inventory size and all four counters 0, touching neither
the ledger nor any further adapter call; a cancel observed already at
the pre-start check also ends CANCELLED with zero counters, but with
`total_assets` left 0 and no adapter call at all.  In both cases the
remaining assets and the orphan phase never execute. -/
theorem cancel_before_first_asset_amended
    (a : Asset) (rest : List Asset) (rid now : Nat) (oc : Nat → UploadOutcome)
    (gItems errs : List String) (L : List SyncItem) (RL : List SyncRunLog)
    (M : List String) :
    (let st0 : EngineState :=
       { ledger := L, runLogs := RL, run := newRun rid, log_messages := M, netCalls := [] }
     let inp : RunInputs :=
       { initOk := true, ensureAlbumOk := true, fetchOk := true,
         assets := a :: rest, oc := oc, cancelAfter := some 1,
         googleItems := gItems, delErrors := errs, now := now }
     let r := (run_sync st0 inp).1
     r.run.status = RunStatus.CANCELLED ∧ r.run.finished_at = some now ∧
     r.run.total_assets = (a :: rest).length ∧
     r.run.uploaded = 0 ∧ r.run.skipped = 0 ∧ r.run.failed = 0 ∧ r.run.deleted = 0 ∧
     r.ledger = L ∧ r.runLogs = RL ∧ r.netCalls = [NetCall.listSourceAssets]) ∧
    (let st0 : EngineState :=
       { ledger := L, runLogs := RL, run := newRun rid, log_messages := M, netCalls := [] }
     let inp : RunInputs :=
       { initOk := true, ensureAlbumOk := true, fetchOk := true,
         assets := a :: rest, oc := oc, cancelAfter := some 0,
         googleItems := gItems, delErrors := errs, now := now }
     let r := (run_sync st0 inp).1
     r.run.status = RunStatus.CANCELLED ∧ r.run.finished_at = some now ∧
     r.run.total_assets = 0 ∧
     r.run.uploaded = 0 ∧ r.run.skipped = 0 ∧ r.run.failed = 0 ∧ r.run.deleted = 0 ∧
     r.ledger = L ∧ r.runLogs = RL ∧ r.netCalls = []) := by
  exact ⟨⟨rfl, rfl, rfl, rfl, rfl, rfl, rfl, rfl, rfl, rfl⟩,
         ⟨rfl, rfl, rfl, rfl, rfl, rfl, rfl, rfl, rfl, rfl⟩⟩

/-- The ledger row whose destination item has vanished from the listing. -/
def itC4 : SyncItem :=
  { immich_asset_id := "a1", immich_checksum := some "x1", immich_updated_at := none,
    immich_filename := some "a.jpg", google_media_item_id := some "g1",
    google_product_url := none, status := SyncStatus.OK, error := none }

/-- Engine state holding only that row. -/
def stC4 : EngineState := { freshState 6 with ledger := [itC4] }

/-- Inputs whose source inventory is empty and whose destination listing
shows only an unrelated item `g2`. -/
def inpC4 : RunInputs :=
  { initOk := true, ensureAlbumOk := true, fetchOk := true, assets := [],
    oc := fun _ => UploadOutcome.success "m" "u", cancelAfter := none,
    googleItems := ["g2"], delErrors := [], now := 7 }

/-- C4 counterexample: the ledger row for `a1` has the non-null
destination id `g1` and `a1` is absent from the source inventory, so the
claim marks it an orphan-candidate "regardless of whether the
destination item still appears in the destination container listing";
but with `g1` missing from the listing the code computes an empty
candidate set, issues no delete for it, and leaves the row untouched. -/
theorem orphan_missing_from_listing_not_deleted :
    itC4.google_media_item_id = some "g1" ∧
    itC4.immich_asset_id ∉ inpC4.assets.map (fun a => a.id) ∧
    orphanCandidates stC4.ledger inpC4.googleItems (inpC4.assets.map (fun a => a.id)) = [] ∧
    (delete_orphaned_assets stC4 inpC4).netCalls = [NetCall.listAlbumItems] ∧
    (delete_orphaned_assets stC4 inpC4).ledger = [itC4] ∧
    (delete_orphaned_assets stC4 inpC4).run.deleted = 0 := by
  refine ⟨rfl, by simp [inpC4], rfl, rfl, rfl, rfl⟩

/-- C10: an asset whose checksum field is present but empty gets the
composite `updatedAt_filename` fingerprint, exactly as when the checksum
is missing, and `sync_asset` behaves identically on the two assets for
every engine state and upload outcome — the empty checksum is falsy in
`asset.get("checksum") or ...`. -/
theorem empty_checksum_same_as_missing (i fn upd : String) :
    fingerprint { id := i, originalFileName := fn, checksum := some "",
                  updatedAt := some upd } = upd ++ "_" ++ fn ∧
    fingerprint { id := i, originalFileName := fn, checksum := none,
                  updatedAt := some upd } = upd ++ "_" ++ fn ∧
    ∀ (st : EngineState) (oc : UploadOutcome),
      sync_asset st { id := i, originalFileName := fn, checksum := some "",
                      updatedAt := some upd } oc =
        sync_asset st { id := i, originalFileName := fn, checksum := none,
                        updatedAt := some upd } oc := by
  exact ⟨rfl, rfl, fun st oc => rfl⟩

/-- A changed fingerprint or a non-OK status defeats the SKIP test. -/
lemma willSkip_false_of_changed {st : EngineState} {a : Asset} {it : SyncItem}
    (hf : findEntry st.ledger a.id = some it)
    (hne : it.immich_checksum ≠ some (fingerprint a) ∨ it.status ≠ SyncStatus.OK) :
    willSkip st.ledger a = false := by
  simp only [willSkip, hf, Bool.and_eq_false_iff, beq_eq_false_iff_ne, ne_eq]
  tauto

/-- C2: per asset, the fingerprint is the source checksum when one is
provided (non-empty), else the `updatedAt_filename` composite; no ledger
entry means UPLOAD (the download for the asset is issued); an entry with
unchanged fingerprint and status OK means SKIP with no adapter call for
the asset, an unchanged ledger, and `skipped` incremented; an entry with
changed fingerprint or non-OK status means re-UPLOAD, and a successful
re-upload overwrites the existing ledger row in place (same row count,
the key now maps to the freshly written row). -/
theorem sync_asset_decision_table (st : EngineState) (a : Asset) (oc : UploadOutcome) :
    (∀ c, a.checksum = some c → c ≠ "" → fingerprint a = c) ∧
    (a.checksum = none →
      fingerprint a = (a.updatedAt.getD "") ++ "_" ++ a.originalFileName) ∧
    (findEntry st.ledger a.id = none →
      NetCall.downloadOriginal a.id ∈ (sync_asset st a oc).1.netCalls) ∧
    (∀ it, findEntry st.ledger a.id = some it →
      it.immich_checksum = some (fingerprint a) → it.status = SyncStatus.OK →
      (sync_asset st a oc).1.netCalls = st.netCalls ∧
      (sync_asset st a oc).1.ledger = st.ledger ∧
      (sync_asset st a oc).1.run.skipped = st.run.skipped + 1) ∧
    (∀ it, findEntry st.ledger a.id = some it →
      it.immich_checksum ≠ some (fingerprint a) ∨ it.status ≠ SyncStatus.OK →
      NetCall.downloadOriginal a.id ∈ (sync_asset st a oc).1.netCalls) ∧
    (∀ it mid url, findEntry st.ledger a.id = some it →
      it.immich_checksum ≠ some (fingerprint a) ∨ it.status ≠ SyncStatus.OK →
      oc = UploadOutcome.success mid url →
      (sync_asset st a oc).1.ledger.length = st.ledger.length ∧
      findEntry (sync_asset st a oc).1.ledger a.id = some (okItem a mid url)) := by
  refine ⟨?_, ?_, ?_, ?_, ?_, ?_⟩
  · intro c hc hne
    simp [fingerprint, pyOr, hc, hne]
  · intro hc
    simp [fingerprint, pyOr, hc]
  · intro hf
    have h1 : willSkip st.ledger a = false := by simp [willSkip, hf]
    rw [sync_asset_eq_upload oc h1, hf]
    exact download_mem_uploadStep st a none oc
  · intro it hf h1 h2
    rw [sync_asset_eq_skip oc hf h1 h2]
    exact ⟨rfl, rfl, rfl⟩
  · intro it hf hne
    rw [sync_asset_eq_upload oc (willSkip_false_of_changed hf hne), hf]
    exact download_mem_uploadStep st a (some it) oc
  · intro it mid url hf hne hoc
    subst hoc
    rw [sync_asset_eq_upload _ (willSkip_false_of_changed hf hne), hf]
    have hsucc := uploadStep_success st a (some it) mid url
    constructor
    · rw [hsucc.1]
      simp
    · rw [hsucc.1]
      exact findEntry_upsert (okItem a mid url) hf rfl

/-- Skip-scenario fixture: the asset already synced with this fingerprint. -/
def itW2 : SyncItem :=
  { immich_asset_id := "a1", immich_checksum := some "c1", immich_updated_at := some "t1",
    immich_filename := some "a.jpg", google_media_item_id := some "g1",
    google_product_url := some "u1", status := SyncStatus.OK, error := none }

/-- Engine state holding that ledger row. -/
def stW2 : EngineState := { freshState 9 with ledger := [itW2] }

/-- The matching source asset. -/
def aW2 : Asset :=
  { id := "a1", originalFileName := "a.jpg", checksum := some "c1", updatedAt := some "t1" }

/-- Witness for C2: on a concrete unchanged OK asset the run skips —
no adapter call, ledger unchanged, `skipped` incremented. -/
theorem sync_asset_decision_table_witness :
    (sync_asset stW2 aW2 (UploadOutcome.success "m" "u")).1.netCalls = stW2.netCalls ∧
    (sync_asset stW2 aW2 (UploadOutcome.success "m" "u")).1.ledger = stW2.ledger ∧
    (sync_asset stW2 aW2 (UploadOutcome.success "m" "u")).1.run.skipped =
      stW2.run.skipped + 1 :=
  (sync_asset_decision_table stW2 aW2 (UploadOutcome.success "m" "u")).2.2.2.1
    itW2 rfl rfl rfl

/-- C3: when any UPLOAD sub-step (download, upload, finalize) fails for
an asset on the upload path, the asset's ledger row ends FAILED with the
error text captured, an AUDIT(FAILED) entry is appended, `failed` is
incremented by one, the run's status is untouched and `sync_asset`
merely returns `False`; the loop then continues with every remaining
asset (its shape under no cancellation) and an uncancelled run with
working setup phases still finalizes OK. -/
theorem sync_asset_failure_absorbed (st : EngineState) (a : Asset) (oc : UploadOutcome)
    (e : String) (hskip : willSkip st.ledger a = false) (herr : outcomeErr oc = some e) :
    findEntry (sync_asset st a oc).1.ledger a.id =
      some (failedFor (findEntry st.ledger a.id) a.id a.originalFileName e) ∧
    (failedFor (findEntry st.ledger a.id) a.id a.originalFileName e).status =
      SyncStatus.FAILED ∧
    (failedFor (findEntry st.ledger a.id) a.id a.originalFileName e).error = some e ∧
    (sync_asset st a oc).1.runLogs =
      st.runLogs ++ [failLog st.run.id a.id a.originalFileName e] ∧
    (failLog st.run.id a.id a.originalFileName e).action = SyncRunAction.FAILED ∧
    (failLog st.run.id a.id a.originalFileName e).error_message = some e ∧
    (sync_asset st a oc).1.run.failed = st.run.failed + 1 ∧
    (sync_asset st a oc).1.run.status = st.run.status ∧
    (sync_asset st a oc).2 = false ∧
    (∀ (inp : RunInputs) (i : Nat) (rest : List Asset) (stL : EngineState),
      inp.cancelAfter = none →
      syncLoop inp i (a :: rest) stL =
        syncLoop inp (i + 1) rest
          (sync_asset (logMsg stL ("Processing asset: " ++ a.originalFileName))
            a (inp.oc (i - 1))).1) ∧
    (∀ (st0 : EngineState) (inp : RunInputs),
      inp.initOk = true → inp.ensureAlbumOk = true → inp.fetchOk = true →
      inp.cancelAfter = none → (run_sync st0 inp).1.run.status = RunStatus.OK) := by
  rw [sync_asset_eq_upload oc hskip]
  obtain ⟨hled, hlog, hfail, hstat, hres⟩ :=
    @uploadStep_fail st a (findEntry st.ledger a.id) oc e herr
  refine ⟨?_, ?_, ?_, hlog, rfl, rfl, hfail, hstat, hres, ?_, ?_⟩
  · rw [hled]
    have hk : (failedFor (findEntry st.ledger a.id) a.id a.originalFileName e).immich_asset_id
        = a.id := by
      cases hf : findEntry st.ledger a.id with
      | none => rfl
      | some it => simpa [failedFor] using findEntry_key hf
    exact findEntry_upsert _ rfl hk
  · cases findEntry st.ledger a.id <;> rfl
  · cases findEntry st.ledger a.id <;> rfl
  · intro inp i rest stL hc
    exact syncLoop_step hc a rest i stL
  · intro st0 inp h1 h2 h3 h4
    exact run_sync_ok h1 h2 h3 h4

/-- A first-seen asset whose byte upload raises. -/
def aW3 : Asset :=
  { id := "b1", originalFileName := "b.jpg", checksum := some "cb", updatedAt := some "t2" }

/-- Witness for C3: on an empty ledger and an upload that raises
`"boom"`, the failed counter increments, the FAILED audit entry is
appended, and `sync_asset` returns `False`. -/
theorem sync_asset_failure_absorbed_witness :
    (sync_asset (freshState 10) aW3 (UploadOutcome.uploadFails "boom")).1.run.failed =
      (freshState 10).run.failed + 1 ∧
    (sync_asset (freshState 10) aW3 (UploadOutcome.uploadFails "boom")).2 = false :=
  ⟨(sync_asset_failure_absorbed (freshState 10) aW3 (UploadOutcome.uploadFails "boom")
      "boom" rfl rfl).2.2.2.2.2.2.1,
   (sync_asset_failure_absorbed (freshState 10) aW3 (UploadOutcome.uploadFails "boom")
      "boom" rfl rfl).2.2.2.2.2.2.2.2.1⟩

/-- C4 (amended): the orphan-candidate set is computed over the
destination items of the just-fetched album listing — a ledger row with a
non-null destination id whose source asset id is gone from the inventory
is a candidate exactly when its destination id appears in the listing —
and whenever the candidate set is nonempty (and no cancel is observed),
one bulk delete of exactly the candidate destination ids is issued. -/
theorem orphan_candidates_amended :
    (∀ (L : List SyncItem) (G C : List String) (gid : String) (it : SyncItem),
      (gid, it) ∈ orphanCandidates L G C ↔
        gid ∈ G ∧ googleLookup L gid = some it ∧ it.immich_asset_id ∉ C) ∧
    (∀ (st : EngineState) (inp : RunInputs),
      cancelObserved inp.cancelAfter (inp.assets.length + 1) = false →
      orphanCandidates st.ledger inp.googleItems (inp.assets.map (fun a => a.id)) ≠ [] →
      NetCall.deleteItems ((orphanCandidates st.ledger inp.googleItems
          (inp.assets.map (fun a => a.id))).map (fun o => o.1)) ∈
        (delete_orphaned_assets st inp).netCalls) := by
  constructor
  · intro L G C gid it
    exact mem_orphanCandidates
  · intro st inp h1 h3
    have h2 : inp.googleItems.isEmpty = false := by
      cases hG : inp.googleItems with
      | nil =>
          exfalso
          apply h3
          rw [hG]
          rfl
      | cons g gs => rfl
    have h3e : (orphanCandidates st.ledger inp.googleItems
        (inp.assets.map (fun a => a.id))).isEmpty = false := by
      simpa [List.isEmpty_iff] using h3
    unfold delete_orphaned_assets
    simp only [h1, Bool.false_eq_true, if_false, logMsg_ledger, logMsg_netCalls,
      h2, h3e]
    rw [foldl_processOrphan_netCalls, foldl_logMsg_netCalls]
    simp

/-- The ledger row for the amended-C4 and C5 scenarios. -/
def itW4 : SyncItem :=
  { immich_asset_id := "a9", immich_checksum := some "x9", immich_updated_at := none,
    immich_filename := some "z.jpg", google_media_item_id := some "g9",
    google_product_url := none, status := SyncStatus.OK, error := none }

/-- Engine state holding that row. -/
def stW4 : EngineState := { freshState 12 with ledger := [itW4] }

/-- Inputs with an empty source inventory and `g9` present in the listing. -/
def inpW4 : RunInputs :=
  { initOk := true, ensureAlbumOk := true, fetchOk := true, assets := [],
    oc := fun _ => UploadOutcome.success "m" "u", cancelAfter := none,
    googleItems := ["g9"], delErrors := [], now := 3 }

/-- Witness for the amended C4: the concrete row linked to `g9` is a
candidate when `g9` is listed, and the bulk delete for the candidate ids
is issued. -/
theorem orphan_candidates_amended_witness :
    ("g9", itW4) ∈ orphanCandidates [itW4] ["g9"] [] ∧
    NetCall.deleteItems ((orphanCandidates stW4.ledger inpW4.googleItems
        (inpW4.assets.map (fun a => a.id))).map (fun o => o.1)) ∈
      (delete_orphaned_assets stW4 inpW4).netCalls :=
  ⟨(orphan_candidates_amended.1 [itW4] ["g9"] [] "g9" itW4).mpr
      ⟨by decide, by decide, by decide⟩,
   orphan_candidates_amended.2 stW4 inpW4 rfl (by decide)⟩

/-- C5: the engine's orphan phase never issues a delete for a
destination item with no ledger row linking it to a source asset: every
id inside a `deleteItems` call freshly added by `delete_orphaned_assets`
is carried by some row of the ledger. -/
theorem never_delete_unlinked (st : EngineState) (inp : RunInputs) (ids : List String)
    (h : NetCall.deleteItems ids ∈ (delete_orphaned_assets st inp).netCalls) :
    NetCall.deleteItems ids ∈ st.netCalls ∨
      ∀ gid ∈ ids, ∃ it, it ∈ st.ledger ∧ it.google_media_item_id = some gid := by
  rcases delete_orphaned_netCalls st inp with hn | hn | ⟨hn, -⟩
  · rw [hn] at h
    exact Or.inl h
  · rw [hn] at h
    rcases List.mem_append.mp h with h | h
    · exact Or.inl h
    · simp at h
  · rw [hn] at h
    rcases List.mem_append.mp h with h | h
    · exact Or.inl h
    · right
      simp only [List.mem_cons, List.mem_singleton, NetCall.deleteItems.injEq,
        List.not_mem_nil, or_false] at h
      rcases h with h | h
      · exact absurd h (by simp)
      · intro gid hgid
        rw [h] at hgid
        obtain ⟨⟨g, it⟩, hmem, rfl⟩ := List.mem_map.mp hgid
        rcases mem_orphanCandidates.mp hmem with ⟨-, hL, -⟩
        rcases googleLookup_spec hL with ⟨hm, hg⟩
        exact ⟨it, hm, hg⟩

/-- Witness for C5: in the concrete orphan-deletion scenario the issued
batch `["g9"]` is fully ledger-linked. -/
theorem never_delete_unlinked_witness :
    NetCall.deleteItems ["g9"] ∈ stW4.netCalls ∨
      ∀ gid ∈ ["g9"], ∃ it, it ∈ stW4.ledger ∧ it.google_media_item_id = some gid :=
  never_delete_unlinked stW4 inpW4 ["g9"] (by decide)

/-- C6: per orphan-candidate id in the deletion batch, a removal the
engine accounts successful (the id is absent from the parsed error
lines) deletes the ledger row entirely, appends AUDIT(DELETED) and
increments `deleted`; a failed removal keeps the row with status
ORPHANED and the error message, deleting nothing and logging nothing;
and the orphan phase never changes the run's status, so an uncancelled
run with working setup phases finalizes OK whatever the delete errors. -/
theorem orphan_batch_per_id (st : EngineState) (gid : String) (it : SyncItem)
    (errs : List String) :
    (gid ∉ errs.map parseErrId →
      (processOrphan errs st (gid, it)).ledger =
        removeByAssetId st.ledger it.immich_asset_id ∧
      findEntry (processOrphan errs st (gid, it)).ledger it.immich_asset_id = none ∧
      (processOrphan errs st (gid, it)).runLogs = st.runLogs ++
        [({ sync_run_id := st.run.id, action := SyncRunAction.DELETED,
            immich_asset_id := it.immich_asset_id,
            immich_filename := pyOr it.immich_filename "unknown",
            google_media_item_id := some gid, error_message := none } : SyncRunLog)] ∧
      (processOrphan errs st (gid, it)).run.deleted = st.run.deleted + 1) ∧
    (gid ∈ errs.map parseErrId →
      (processOrphan errs st (gid, it)).ledger = markOrphaned st.ledger it.immich_asset_id ∧
      (processOrphan errs st (gid, it)).run.deleted = st.run.deleted ∧
      (processOrphan errs st (gid, it)).runLogs = st.runLogs ∧
      (∀ it0, findEntry st.ledger it.immich_asset_id = some it0 →
        findEntry (processOrphan errs st (gid, it)).ledger it.immich_asset_id =
          some { it0 with status := SyncStatus.ORPHANED,
                          error := some "Failed to remove from Google Photos album" })) ∧
    (∀ inp, (delete_orphaned_assets st inp).run.status = st.run.status) ∧
    (∀ (st0 : EngineState) (inp : RunInputs),
      inp.initOk = true → inp.ensureAlbumOk = true → inp.fetchOk = true →
      inp.cancelAfter = none → (run_sync st0 inp).1.run.status = RunStatus.OK) := by
  refine ⟨?_, ?_, ?_, ?_⟩
  · intro hmem
    refine ⟨?_, ?_, ?_, ?_⟩
    · simp [processOrphan, hmem]
    · simp only [processOrphan, hmem, if_false]
      exact findEntry_removeByAssetId st.ledger it.immich_asset_id
    · simp [processOrphan, hmem]
    · simp [processOrphan, hmem]
  · intro hmem
    refine ⟨?_, ?_, ?_, ?_⟩
    · simp [processOrphan, hmem]
    · simp [processOrphan, hmem]
    · simp [processOrphan, hmem]
    · intro it0 h0
      simp only [processOrphan, hmem, if_true]
      exact findEntry_markOrphaned h0
  · intro inp
    exact delete_orphaned_run_status st inp
  · intro st0 inp h1 h2 h3 h4
    exact run_sync_ok h1 h2 h3 h4

/-- The ledger row used in the per-id orphan-deletion witness. -/
def itW6 : SyncItem :=
  { immich_asset_id := "a6", immich_checksum := some "x6", immich_updated_at := none,
    immich_filename := some "w.jpg", google_media_item_id := some "g6",
    google_product_url := none, status := SyncStatus.OK, error := none }

/-- Engine state holding that row. -/
def stW6 : EngineState := { freshState 13 with ledger := [itW6] }

/-- Witness for C6: with the single error line `"Item g6: quota"`, the id
`g6` is treated as a failed removal (row marked ORPHANED, nothing
deleted), while an id absent from the errors, `g7`, is treated as
removed (`deleted` incremented, row dropped). -/
theorem orphan_batch_per_id_witness :
    ((processOrphan ["Item g6: quota"] stW6 ("g6", itW6)).ledger =
        markOrphaned stW6.ledger itW6.immich_asset_id ∧
      (processOrphan ["Item g6: quota"] stW6 ("g6", itW6)).run.deleted =
        stW6.run.deleted) ∧
    ((processOrphan ["Item g6: quota"] stW6 ("g7", itW6)).run.deleted =
        stW6.run.deleted + 1 ∧
      findEntry (processOrphan ["Item g6: quota"] stW6 ("g7", itW6)).ledger
        itW6.immich_asset_id = none) :=
  ⟨⟨(((orphan_batch_per_id stW6 "g6" itW6 ["Item g6: quota"]).2.1) (by decide)).1,
    (((orphan_batch_per_id stW6 "g6" itW6 ["Item g6: quota"]).2.1) (by decide)).2.1⟩,
   ⟨(((orphan_batch_per_id stW6 "g7" itW6 ["Item g6: quota"]).1) (by decide)).2.2.2,
    (((orphan_batch_per_id stW6 "g7" itW6 ["Item g6: quota"]).1) (by decide)).2.1⟩⟩

/-- C9: with a run already RUNNING, the trigger call fails with the
409 conflict and the runs table is unchanged; with no RUNNING run, it
appends exactly one new run, created RUNNING, and returns that run's id. -/
theorem trigger_conflict_or_create (st : AppState) :
    (anyRunning st.runs = true →
      (trigger_sync st).2 = Except.error (TriggerError.conflict 409) ∧
      (trigger_sync st).1 = st) ∧
    (anyRunning st.runs = false →
      ∃ r : SyncRun, (trigger_sync st).1.runs = st.runs ++ [r] ∧
        r.status = RunStatus.RUNNING ∧
        (trigger_sync st).2 = Except.ok r.id) := by
  constructor
  · intro h
    constructor <;> simp [trigger_sync, h]
  · intro h
    refine ⟨newRun st.nextId, ?_, rfl, ?_⟩ <;>
      simp [trigger_sync, h, insertRun, newRun]

/-- A runs table with one RUNNING run. -/
def busyApp : AppState := { runs := [newRun 1], nextId := 2 }

/-- Witness for C9: with a RUNNING run the trigger 409s and changes
nothing; on the empty table it creates a RUNNING run and returns its id. -/
theorem trigger_conflict_or_create_witness :
    ((trigger_sync busyApp).2 = Except.error (TriggerError.conflict 409) ∧
      (trigger_sync busyApp).1 = busyApp) ∧
    (∃ r : SyncRun, (trigger_sync emptyApp).1.runs = emptyApp.runs ++ [r] ∧
      r.status = RunStatus.RUNNING ∧
      (trigger_sync emptyApp).2 = Except.ok r.id) :=
  ⟨(trigger_conflict_or_create busyApp).1 rfl,
   (trigger_conflict_or_create emptyApp).2 rfl⟩

end ImmichMirror
